import Mathlib

/-!
Verification of the DockerHub Perceval backend
(`src/perceval/backends/core/dockerhub.py`).

The module is a thin connector: it builds a URL from an owner/repository
pair, performs one HTTP GET, parses the JSON body, stamps it with a fetch
timestamp and yields a single record.  We embed the connector shallowly:

* JSON values are an inductive type `Json`; Python `dict` objects become
  association lists of string keys.
* External effects (the HTTP call made by `DockerHubClient.repository`, the
  clock `datetime_utcnow().timestamp()`, and the behaviour of the standard
  `json.loads`) are inputs of the embedding, collected in a `FetchEnv`.
* `fetch_items` returns, besides its `Except` result, a list of `Event`s
  recording the order of the observable steps (HTTP return, clock capture,
  yield), so that ordering claims can be stated.
-/

namespace DockerHubSpec

/-- JSON values as produced by parsing a response body.  Python numbers are
modelled as integers; the claims under study never compute with the numeric
value, they only transport it. -/
inductive Json where
  | null : Json
  | bool (b : Bool) : Json
  | num (n : Int) : Json
  | str (s : String) : Json
  | arr (elems : List Json) : Json
  | obj (fields : List (String × Json)) : Json
deriving Repr, Inhabited

/-- Modelled from the spec: Python `str.strip('/')`, used by the external
`grimoirelab_toolkit.uris.urijoin` helper (its sources are not part of this
repository).  It removes `'/'` characters from both ends of a string. -/
def stripSlashes (s : String) : String :=
  ⟨((s.data.dropWhile (· = '/')).reverse.dropWhile (· = '/')).reverse⟩

/-- Modelled from the spec: `grimoirelab_toolkit.uris.urijoin` (external to
this repository) joins URI components with `'/'` after stripping slashes from
each component; the spec describes it as "joining a fixed base URL, owner,
and repository" and its examples fix the exact output
(`origin = "https://hub.docker.com/library/python"`). -/
def urijoin : List String → String
  | [] => ""
  | [p] => stripSlashes p
  | p :: rest => stripSlashes p ++ "/" ++ urijoin rest

/-- `CATEGORY_DOCKERHUB_DATA` constant of the module. -/
def CATEGORY_DOCKERHUB_DATA : String := "dockerhub-data"

/-- `DOCKERHUB_URL` constant of the module. -/
def DOCKERHUB_URL : String := "https://hub.docker.com/"

/-- `DOCKERHUB_API_URL = urijoin(DOCKERHUB_URL, 'v2')`. -/
def DOCKERHUB_API_URL : String := urijoin [DOCKERHUB_URL, "v2"]

/-- `DOCKER_OWNER` constant of the module. -/
def DOCKER_OWNER : String := "library"

/-- `DOCKER_SHORTCUT_OWNER` constant of the module. -/
def DOCKER_SHORTCUT_OWNER : String := "_"

/-- `DockerHub.CATEGORIES`. -/
def CATEGORIES : List String := [CATEGORY_DOCKERHUB_DATA]

/-- The state a `DockerHub` instance holds after `__init__`: the origin
computed for the base class, the (possibly rewritten) owner, the repository
and the tag. -/
structure DockerHub where
  origin : String
  owner : String
  repository : String
  tag : Option String
deriving Repr, DecidableEq

/-- `DockerHub.__init__`: rewrite the shortcut owner `"_"` to `"library"`,
compute `origin = urijoin(DOCKERHUB_URL, owner, repository)` and store the
fields. -/
def DockerHub.init (owner repository : String) (tag : Option String) : DockerHub :=
  let owner := if owner = DOCKER_SHORTCUT_OWNER then DOCKER_OWNER else owner
  { origin := urijoin [DOCKERHUB_URL, owner, repository]
    owner := owner
    repository := repository
    tag := tag }

/-- `DockerHubClient.RREPOSITORY`. -/
def RREPOSITORY : String := "repositories"

/-- The URL built by `DockerHubClient.repository`:
`urijoin(self.base_url, self.RREPOSITORY, owner, repository)` where
`base_url = DOCKERHUB_API_URL`. -/
def DockerHubClient.repositoryUrl (owner repository : String) : String :=
  urijoin [DOCKERHUB_API_URL, RREPOSITORY, owner, repository]

/-- Failure of the HTTP transport used by `DockerHubClient.fetch`: either a
connection failure or a non-2xx response status. -/
inductive HttpError where
  | connectionError : HttpError
  | statusError (code : Nat) : HttpError
deriving Repr, DecidableEq

/-- An error escaping `DockerHub.fetch_items`: the HTTP error raised by the
client, the `ValueError` raised by `json.loads` on malformed input, or the
`TypeError` raised by `data['fetched_on'] = ...` when `data` is not a dict. -/
inductive FetchError where
  | http (e : HttpError) : FetchError
  | parse (msg : String) : FetchError
  | typeErr : FetchError
deriving Repr, DecidableEq

/-- Observable steps of one `fetch_items` run, in order: the HTTP call
returning its body, the clock being read, a record being yielded. -/
inductive Event where
  | httpReturned (raw : String) : Event
  | clockRead (t : Int) : Event
  | yielded (item : Json) : Event
deriving Repr

/-- The external world of one `fetch_items` invocation: the outcome of the
single HTTP call `client.repository(owner, repository)`, the value the clock
`datetime_utcnow().timestamp()` returns when read, and the behaviour of the
standard-library `json.loads` on raw text. -/
structure FetchEnv where
  httpResult : Except HttpError String
  clock : Int
  jsonLoads : String → Except String Json

/-- Python dict assignment `d[k] = v` on an association list: overwrite the
(first) binding of `k` in place if present, append the binding otherwise. -/
def setKey : List (String × Json) → String → Json → List (String × Json)
  | [], k, v => [(k, v)]
  | (k', v') :: rest, k, v =>
    if k' = k then (k, v) :: rest else (k', v') :: setKey rest k v

/-- Python dict lookup `d[k]` on an association list (first binding wins). -/
def lookupKey : List (String × Json) → String → Option Json
  | [], _ => none
  | (k', v') :: rest, k => if k' = k then some v' else lookupKey rest k

/-- Number of bindings of a key in an association list. -/
def countKey : List (String × Json) → String → Nat
  | [], _ => 0
  | (k', _) :: rest, k => (if k' = k then 1 else 0) + countKey rest k

/-- Python `item[k]` where `item` should be a dict: `none` models the
`KeyError`/`TypeError` path. -/
def Json.getField : Json → String → Option Json
  | .obj fields, k => lookupKey fields k
  | _, _ => none

/-- Python `data[k] = v`: succeeds only when `data` is a dict; on any other
value the statement raises a `TypeError`, modelled by `Except.error`. -/
def Json.setField : Json → String → Json → Except Unit Json
  | .obj fields, k, v => .ok (.obj (setKey fields k v))
  | _, _, _ => .error ()

/-- `DockerHub.parse_json`: delegates to `json.loads` (standard library,
modelled by the environment). -/
def parse_json (env : FetchEnv) (raw_json : String) : Except String Json :=
  env.jsonLoads raw_json

/-- `DockerHub.fetch_items`: call `client.repository`, capture
`fetched_on = datetime_utcnow().timestamp()` right after the call returns,
parse the body, inject `fetched_on` and yield the single record.  The first
component records the observable events in the order the code performs
them; any exception aborts the run with no record yielded. -/
def fetch_items (env : FetchEnv) : List Event × Except FetchError (List Json) :=
  match env.httpResult with
  | .error e => ([], .error (.http e))
  | .ok raw_data =>
    let fetched_on : Int := env.clock
    match parse_json env raw_data with
    | .error msg =>
      ([.httpReturned raw_data, .clockRead fetched_on], .error (.parse msg))
    | .ok data =>
      match data.setField "fetched_on" (.num fetched_on) with
      | .error _ =>
        ([.httpReturned raw_data, .clockRead fetched_on], .error .typeErr)
      | .ok item =>
        ([.httpReturned raw_data, .clockRead fetched_on, .yielded item],
         .ok [item])

/-- An error escaping `DockerHub.fetch`: either the category check of the
generic base class fails, or `fetch_items` fails. -/
inductive BackendError where
  | wrongCategory (cat : String) : BackendError
  | fetchErr (e : FetchError) : BackendError
deriving Repr, DecidableEq

/-- Modelled from the spec: `DockerHub.fetch` delegates to the generic
`Backend.fetch` of the host framework (whose sources are not in this
repository); per the spec it "validates that `category` is the sole
supported category" and an invalid category is "rejected before any network
call is made", only then delegating to `fetch_items`.  The empty event trace
on rejection records that no HTTP call happened. -/
def DockerHub.fetch (env : FetchEnv) (category : String) :
    List Event × Except BackendError (List Json) :=
  if category ∈ CATEGORIES then
    let r := fetch_items env
    (r.1, r.2.mapError .fetchErr)
  else
    ([], .error (.wrongCategory category))

/-- Modelled from the spec: Python `str()` conversion, as used by
`metadata_id` on the `fetched_on` timestamp (the only value it is ever
applied to by this backend is a number). -/
def pyStr : Json → String
  | .null => "None"
  | .bool true => "True"
  | .bool false => "False"
  | .num n => toString n
  | .str s => s
  | .arr _ => "[...]"
  | .obj _ => "\x7b...\x7d"

/-- `DockerHub.metadata_id`: `str(item['fetched_on'])`; `none` models the
`KeyError` on a record without the field. -/
def DockerHub.metadata_id (item : Json) : Option String :=
  (item.getField "fetched_on").map pyStr

/-- `DockerHub.metadata_updated_on`: `item['fetched_on']`. -/
def DockerHub.metadata_updated_on (item : Json) : Option Json :=
  item.getField "fetched_on"

/-- `DockerHub.metadata_category`: the constant `CATEGORY_DOCKERHUB_DATA`,
independent of the item. -/
def DockerHub.metadata_category (_item : Json) : String :=
  CATEGORY_DOCKERHUB_DATA

/-- A concrete environment for a successful fetch: the mocked body parses to
the object of the spec's example. -/
def envOk : FetchEnv :=
  { httpResult := .ok "payload"
    clock := 1600000000
    jsonLoads := fun _ => .ok (.obj [("name", .str "python")]) }

/-- The record `fetch_items envOk` produces. -/
def recOk : Json :=
  .obj [("name", .str "python"), ("fetched_on", .num 1600000000)]

/-- A concrete environment whose upstream payload already carries a
`fetched_on` field, to exercise the overwrite behaviour. -/
def envOverwrite : FetchEnv :=
  { httpResult := .ok "body"
    clock := 7
    jsonLoads := fun _ => .ok (.obj [("fetched_on", .num 5), ("name", .str "python")]) }

/-- A concrete environment where the HTTP call fails with a 404 status. -/
def envHttpErr : FetchEnv :=
  { httpResult := .error (.statusError 404)
    clock := 0
    jsonLoads := fun _ => .error "unreachable" }

/-- A concrete environment where the body is not valid JSON. -/
def envBadJson : FetchEnv :=
  { httpResult := .ok "not json"
    clock := 3
    jsonLoads := fun _ => .error "Expecting value" }

/-- A concrete environment where the body is valid JSON but not an object. -/
def envNonObj : FetchEnv :=
  { httpResult := .ok "[1, 2]"
    clock := 3
    jsonLoads := fun _ => .ok (.arr [.num 1, .num 2]) }

/-! ### Helper lemmas about dict assignment -/

theorem lookupKey_setKey (l : List (String × Json)) (k : String) (v : Json) :
    lookupKey (setKey l k v) k = some v := by
  induction l with
  | nil => simp [setKey, lookupKey]
  | cons p rest ih =>
    obtain ⟨k', v'⟩ := p
    by_cases hk : k' = k
    · simp [setKey, hk, lookupKey]
    · simp [setKey, hk, lookupKey, ih]

theorem countKey_eq_zero (l : List (String × Json)) (k : String)
    (h : k ∉ l.map Prod.fst) : countKey l k = 0 := by
  induction l with
  | nil => simp [countKey]
  | cons p rest ih =>
    obtain ⟨k', v'⟩ := p
    simp only [List.map_cons, List.mem_cons] at h
    push_neg at h
    simp [countKey, Ne.symm h.1, ih h.2]

theorem countKey_setKey (l : List (String × Json)) (k : String) (v : Json)
    (h : (l.map Prod.fst).Nodup) : countKey (setKey l k v) k = 1 := by
  induction l with
  | nil => simp [setKey, countKey]
  | cons p rest ih =>
    obtain ⟨k', v'⟩ := p
    simp only [List.map_cons, List.nodup_cons] at h
    by_cases hk : k' = k
    · subst hk
      simp [setKey, countKey, countKey_eq_zero rest k' h.1]
    · simp [setKey, hk, countKey, ih h.2]

/-- Shape of every successful `fetch_items` run: the HTTP call returned some
body, that body parsed to a JSON object, and the single yielded record is
that object with `fetched_on` set to the captured clock value; the event
trace fixes the order HTTP-return, clock-read, yield. -/
theorem fetch_items_ok (env : FetchEnv) (tr : List Event) (items : List Json)
    (h : fetch_items env = (tr, .ok items)) :
    ∃ raw fields,
      env.httpResult = .ok raw ∧
      env.jsonLoads raw = .ok (.obj fields) ∧
      items = [.obj (setKey fields "fetched_on" (.num env.clock))] ∧
      tr = [.httpReturned raw, .clockRead env.clock,
            .yielded (.obj (setKey fields "fetched_on" (.num env.clock)))] := by
  unfold fetch_items at h
  cases hh : env.httpResult with
  | error e => rw [hh] at h; simp at h
  | ok raw =>
    rw [hh] at h
    simp only [parse_json] at h
    cases hp : env.jsonLoads raw with
    | error msg => rw [hp] at h; simp at h
    | ok data =>
      rw [hp] at h
      cases data with
      | obj fields =>
        simp only [Json.setField] at h
        rw [Prod.mk.injEq] at h
        obtain ⟨h1, h2⟩ := h
        injection h2 with h2
        exact ⟨raw, fields, rfl, hp, h2.symm, h1.symm⟩
      | null => simp [Json.setField] at h
      | bool b => simp [Json.setField] at h
      | num n => simp [Json.setField] at h
      | str s => simp [Json.setField] at h
      | arr elems => simp [Json.setField] at h

/-! ### The claims -/

/-- C1: every successful invocation of `DockerHub.fetch_items` yields exactly
one record, and that record contains a `fetched_on` field whose value is the
clock value captured after the HTTP call returned and before the record was
yielded (in the event trace, the clock read sits strictly between the HTTP
return and the yield). -/
theorem fetch_items_yields_single_timestamped_record
    (env : FetchEnv) (tr : List Event) (items : List Json)
    (h : fetch_items env = (tr, .ok items)) :
    items.length = 1 ∧
    ∃ raw item, items = [item] ∧
      tr = [.httpReturned raw, .clockRead env.clock, .yielded item] ∧
      item.getField "fetched_on" = some (.num env.clock) := by
  obtain ⟨raw, fields, hh, hp, hi, ht⟩ := fetch_items_ok env tr items h
  subst hi; subst ht
  exact ⟨rfl, raw, _, rfl, rfl, by simp [Json.getField, lookupKey_setKey]⟩

/-- C1 witness: a concrete successful environment. -/
theorem fetch_items_yields_single_timestamped_record_witness :
    ∃ tr items, fetch_items envOk = (tr, Except.ok items) ∧ items.length = 1 :=
  ⟨_, _, rfl, (fetch_items_yields_single_timestamped_record envOk _ _ rfl).1⟩

/-- C2: every emitted record equals the upstream JSON payload with
`fetched_on` set to the locally captured timestamp; the record has exactly
one `fetched_on` binding and looking it up returns the local timestamp — in
particular an upstream `fetched_on` field is overwritten. -/
theorem emitted_record_is_payload_union_fetched_on
    (env : FetchEnv) (tr : List Event) (items : List Json) (item : Json)
    (raw : String) (fields : List (String × Json))
    (h : fetch_items env = (tr, .ok items)) (hm : item ∈ items)
    (hraw : env.httpResult = .ok raw)
    (hp : env.jsonLoads raw = .ok (.obj fields))
    (hnd : (fields.map Prod.fst).Nodup) :
    item = .obj (setKey fields "fetched_on" (.num env.clock)) ∧
    ∃ ifields, item = .obj ifields ∧
      countKey ifields "fetched_on" = 1 ∧
      lookupKey ifields "fetched_on" = some (.num env.clock) := by
  obtain ⟨raw', fields', hh', hp', hi, ht⟩ := fetch_items_ok env tr items h
  rw [hraw] at hh'
  injection hh' with hr
  subst hr
  rw [hp] at hp'
  injection hp' with ho
  injection ho with hf
  subst hf
  subst hi
  rw [List.mem_singleton] at hm
  subst hm
  exact ⟨rfl, setKey fields "fetched_on" (.num env.clock), rfl,
    countKey_setKey fields "fetched_on" (.num env.clock) hnd,
    lookupKey_setKey fields "fetched_on" (.num env.clock)⟩

/-- The record `fetch_items envOverwrite` produces: the upstream value `5` of
`fetched_on` has been replaced by the local clock value `7`. -/
def recOverwrite : Json :=
  .obj [("fetched_on", .num 7), ("name", .str "python")]

/-- C2 witness: a concrete run whose upstream payload already contains a
`fetched_on` field; the emitted record carries the local timestamp. -/
theorem emitted_record_is_payload_union_fetched_on_witness :
    recOverwrite =
      Json.obj (setKey [("fetched_on", Json.num 5), ("name", Json.str "python")]
        "fetched_on" (Json.num 7)) ∧
    ∃ ifields, recOverwrite = Json.obj ifields ∧
      countKey ifields "fetched_on" = 1 ∧
      lookupKey ifields "fetched_on" = some (Json.num 7) :=
  emitted_record_is_payload_union_fetched_on envOverwrite _ _ recOverwrite
    "body" [("fetched_on", Json.num 5), ("name", Json.str "python")]
    rfl (List.mem_singleton.mpr rfl) rfl rfl (by decide)

/-- C3: constructing `DockerHub` with owner `"_"` produces exactly the state
produced with owner `"library"` and the same repository (hence equal origin
and stored owner); for repository `"python"` the origin is
`"https://hub.docker.com/library/python"`. -/
theorem shortcut_owner_matches_library (repository : String) (tag : Option String) :
    DockerHub.init DOCKER_SHORTCUT_OWNER repository tag =
      DockerHub.init DOCKER_OWNER repository tag ∧
    (DockerHub.init DOCKER_SHORTCUT_OWNER "python" none).origin =
      "https://hub.docker.com/library/python" :=
  ⟨rfl, rfl⟩

/-- C4: `DockerHubClient.repository` requests the URL obtained by joining the
API base URL, `"repositories"`, the owner and the repository; for components
with no surrounding slashes this is literally
`https://hub.docker.com/v2/repositories/{owner}/{repository}`, with no query
parameters appended. -/
theorem repository_request_url (owner repository : String)
    (h1 : stripSlashes owner = owner) (h2 : stripSlashes repository = repository) :
    DockerHubClient.repositoryUrl owner repository =
      "https://hub.docker.com/v2/repositories/" ++ owner ++ "/" ++ repository := by
  unfold DockerHubClient.repositoryUrl
  simp only [urijoin]
  rw [h1, h2]
  rfl

/-- C4 witness: a concrete owner and repository. -/
theorem repository_request_url_witness :
    DockerHubClient.repositoryUrl "library" "python" =
      "https://hub.docker.com/v2/repositories/" ++ "library" ++ "/" ++ "python" :=
  repository_request_url "library" "python" rfl rfl

/-- C5: if the HTTP call made by `client.repository` fails, `fetch_items`
propagates that error unchanged and yields zero records: the result is the
same `HttpError`, the item list is absent and the trace holds no yield. -/
theorem http_error_propagates_zero_records (env : FetchEnv) (e : HttpError)
    (h : env.httpResult = .error e) :
    fetch_items env = ([], .error (.http e)) := by
  unfold fetch_items
  rw [h]

/-- C5 witness: a concrete 404 response. -/
theorem http_error_propagates_zero_records_witness :
    fetch_items envHttpErr = ([], .error (.http (.statusError 404))) :=
  http_error_propagates_zero_records envHttpErr (.statusError 404) rfl

/-- C6: if the response body is not valid JSON, `fetch_items` propagates the
parse error and yields zero records (the trace holds no yield event). -/
theorem parse_error_propagates_zero_records (env : FetchEnv) (raw msg : String)
    (h1 : env.httpResult = .ok raw) (h2 : env.jsonLoads raw = .error msg) :
    fetch_items env =
      ([.httpReturned raw, .clockRead env.clock], .error (.parse msg)) := by
  unfold fetch_items
  rw [h1]
  simp only [parse_json, h2]

/-- C6 witness: a concrete non-JSON body. -/
theorem parse_error_propagates_zero_records_witness :
    fetch_items envBadJson =
      ([.httpReturned "not json", .clockRead 3], .error (.parse "Expecting value")) :=
  parse_error_propagates_zero_records envBadJson "not json" "Expecting value" rfl rfl

/-- C7: `DockerHub.fetch` with a category other than `"dockerhub-data"` is
rejected before any network call: the result is the category error and the
event trace is empty (in particular no `httpReturned` event). -/
theorem invalid_category_rejected_before_network (env : FetchEnv) (category : String)
    (h : category ≠ CATEGORY_DOCKERHUB_DATA) :
    DockerHub.fetch env category = ([], .error (.wrongCategory category)) := by
  simp [DockerHub.fetch, CATEGORIES, h]

/-- C7 witness: the category `"commit"` is rejected. -/
theorem invalid_category_rejected_before_network_witness :
    DockerHub.fetch envOk "commit" = ([], .error (.wrongCategory "commit")) :=
  invalid_category_rejected_before_network envOk "commit" (by decide)

/-- C8: for every record the backend produces, the record has a `fetched_on`
field `v`, `metadata_id` returns the string conversion of `v` and
`metadata_updated_on` returns `v` itself. -/
theorem metadata_id_and_updated_on_from_fetched_on
    (env : FetchEnv) (tr : List Event) (items : List Json) (item : Json)
    (h : fetch_items env = (tr, .ok items)) (hm : item ∈ items) :
    ∃ v, item.getField "fetched_on" = some v ∧
      DockerHub.metadata_id item = some (pyStr v) ∧
      DockerHub.metadata_updated_on item = some v := by
  obtain ⟨raw, fields, hh, hp, hi, ht⟩ := fetch_items_ok env tr items h
  subst hi
  rw [List.mem_singleton] at hm
  subst hm
  refine ⟨.num env.clock, ?_, ?_, ?_⟩ <;>
    simp [DockerHub.metadata_id, DockerHub.metadata_updated_on, Json.getField,
      lookupKey_setKey]

/-- C8 witness: the record of a concrete successful run. -/
theorem metadata_id_and_updated_on_from_fetched_on_witness :
    ∃ v, Json.getField recOk "fetched_on" = some v ∧
      DockerHub.metadata_id recOk = some (pyStr v) ∧
      DockerHub.metadata_updated_on recOk = some v :=
  metadata_id_and_updated_on_from_fetched_on envOk _ _ recOk rfl
    (List.mem_singleton.mpr rfl)

/-- C9: `metadata_category` returns the constant `"dockerhub-data"` for every
item, independent of the item's contents. -/
theorem metadata_category_constant (item : Json) :
    DockerHub.metadata_category item = "dockerhub-data" :=
  rfl

/-- C10: if the response body is valid JSON but not a JSON object, injecting
`fetched_on` raises a `TypeError`: `fetch_items` fails with no record
yielded. -/
theorem non_object_payload_fails_zero_records
    (env : FetchEnv) (raw : String) (j : Json)
    (h1 : env.httpResult = .ok raw) (h2 : env.jsonLoads raw = .ok j)
    (h3 : ∀ fields, j ≠ .obj fields) :
    fetch_items env =
      ([.httpReturned raw, .clockRead env.clock], .error .typeErr) := by
  unfold fetch_items
  rw [h1]
  simp only [parse_json, h2]
  cases j with
  | obj fields => exact absurd rfl (h3 fields)
  | null => rfl
  | bool b => rfl
  | num n => rfl
  | str s => rfl
  | arr elems => rfl

/-- C10 witness: a body parsing to the JSON array `[1, 2]`. -/
theorem non_object_payload_fails_zero_records_witness :
    fetch_items envNonObj =
      ([.httpReturned "[1, 2]", .clockRead 3], .error .typeErr) :=
  non_object_payload_fails_zero_records envNonObj "[1, 2]" (.arr [.num 1, .num 2])
    rfl rfl (fun _ hctr => Json.noConfusion hctr)

end DockerHubSpec
